import Mathlib

/-!
Verification of the personality state machine of `sage/ui/personality.py`.

The Python class `PersonalitySystem` is embedded shallowly:
* its mutable fields become the structure `Engine`;
* durations and wall-clock instants are modelled as integers (`Int`),
  the current time being passed explicitly as `now` where the source
  calls `time.time()`;
* the two random draws the source makes (`random.choice`, picking a
  uniform index into a list, and `random.randint(1, total)`) are
  modelled by explicit parameters `i : Nat` (the uniform index, reduced
  modulo the list length) and `r : Int` (the weighted draw);
* each mutating method becomes a function `Engine → ... → Engine × _`
  returning the new state together with the value the method returns.
-/

/-- Embeds `VideoInfo` of the source: a clip with location, duration and
selection weight (the Python field defaults to 10). -/
structure VideoInfo where
  location : String
  duration : Int
  weight : Int
deriving DecidableEq, Repr

/-- Embeds `PersonalityExpression` of the source. -/
structure PersonalityExpression where
  videos : List VideoInfo
  description : String
  use_cases : List String
deriving DecidableEq, Repr

/-- The three sub-tables of `context_mapping` that
`_determine_emotion_by_rules` reads. -/
structure ContextMapping where
  error_severity : List (String × List String)
  interaction_type : List (String × List String)
  user_relationship : List (String × List String)
deriving DecidableEq, Repr

/-- A rule-resolver context: the three keys `_determine_emotion_by_rules`
reads from its `context` dict, each possibly absent. -/
structure Context where
  error_severity : Option String
  interaction_type : Option String
  user_relationship : Option String
deriving DecidableEq, Repr

/-- The mutable state of `PersonalitySystem`, plus the loaded catalog
(kept on the same object in the source). -/
structure Engine where
  expressions : List (String × PersonalityExpression)
  context_mapping : ContextMapping
  fallback_emotions : List String
  default_emotion : String
  idle_videos : List VideoInfo
  current_state : String
  current_video_start_time : Option Int
  current_video_duration : Option Int
  task_queue : List String
  is_sleeping : Bool
  sleep_pending : Bool
deriving DecidableEq, Repr

/-- The response dict the methods build: keys `message`, `emotion`,
`timestamp`, optional `type`, and the clip keys added when a video was
selected. -/
structure Response where
  message : String
  emotion : String
  timestamp : Int
  rtype : Option String
  video : Option String
  duration : Option Int
  description : Option String
deriving DecidableEq, Repr

/-- State right after `__init__` ran with a successfully loaded
configuration: idle, empty queue, no timing, not sleeping; the default
emotion is always the string `neutral` in the source. -/
def initEngine (exprs : List (String × PersonalityExpression))
    (cm : ContextMapping) (fb : List String) (idles : List VideoInfo) : Engine :=
  { expressions := exprs
    context_mapping := cm
    fallback_emotions := fb
    default_emotion := ("neutral")
    idle_videos := idles
    current_state := ("idle")
    current_video_start_time := none
    current_video_duration := none
    task_queue := []
    is_sleeping := false
    sleep_pending := false }

/-- Sum of the `weight` fields, as in `sum(video.weight for video in videos)`. -/
def totalWeight (videos : List VideoInfo) : Int :=
  (videos.map VideoInfo.weight).sum

/-- Cumulative weight of the first `n` clips of the list. -/
def cumWeight (videos : List VideoInfo) (n : Nat) : Int :=
  ((videos.take n).map VideoInfo.weight).sum

/-- The `for video in videos` loop of `_weighted_random_selection`:
accumulate weights and return the first clip whose cumulative weight
reaches the drawn value `r`; `none` when the loop falls through. -/
def walkWeights (videos : List VideoInfo) (r : Int) (cum : Int) : Option VideoInfo :=
  match videos with
  | [] => none
  | v :: rest => if r ≤ cum + v.weight then some v else walkWeights rest r (cum + v.weight)

/-- Embeds `_weighted_random_selection(videos)`.  The uniform draw of
`random.choice` is modelled by the index `i % videos.length`; the draw
of `random.randint(1, total_weight)` is the parameter `r`. -/
def weightedRandomSelection (videos : List VideoInfo) (i : Nat) (r : Int) : Option VideoInfo :=
  if videos = [] then none
  else if totalWeight videos ≤ 0 then videos[i % videos.length]?
  else
    match walkWeights videos r 0 with
    | some v => some v
    | none => videos.getLast?

/-- Embeds `get_random_idle_video`. -/
def get_random_idle_video (e : Engine) (i : Nat) (r : Int) : Option VideoInfo :=
  if e.idle_videos ≠ [] then weightedRandomSelection e.idle_videos i r else none

/-- Embeds `get_expression_data(emotion)`: dictionary lookup in the catalog. -/
def get_expression_data (e : Engine) (emotion : String) : Option PersonalityExpression :=
  List.lookup emotion e.expressions

/-- Embeds `should_change_video()`: true when no timing is set or the elapsed
time `now - start` has reached the duration. -/
def should_change_video (e : Engine) (now : Int) : Bool :=
  match e.current_video_start_time, e.current_video_duration with
  | some st, some du => decide (now - st ≥ du)
  | _, _ => true

/-- Embeds `start_task(emotion)`: sets the state to task and appends the
emotion to the task queue. -/
def start_task (e : Engine) (emotion : String) : Engine :=
  { e with current_state := ("task"), task_queue := e.task_queue ++ [emotion] }

/-- Embeds `add_task_emotion(emotion)`: appends to the queue only in task state. -/
def add_task_emotion (e : Engine) (emotion : String) : Engine :=
  if e.current_state = ("task") then
    { e with task_queue := e.task_queue ++ [emotion] }
  else e

/-- Embeds `complete_task()`: back to idle, queue and timing cleared. -/
def complete_task (e : Engine) : Engine :=
  { e with
    current_state := ("idle")
    task_queue := []
    current_video_start_time := none
    current_video_duration := none }

/-- Embeds `create_personality_response(message, emotion)` (the optional
`additional_data` argument, which only merges extra keys into the
returned dict, is omitted).  Returns the new state and the response. -/
def create_personality_response (e : Engine) (message : String) (emotion : String)
    (now : Int) (i : Nat) (r : Int) : Engine × Response :=
  match get_expression_data e emotion with
  | none => (e, ⟨message, emotion, now * 1000, none, none, none, none⟩)
  | some expr =>
    match weightedRandomSelection expr.videos i r with
    | none => (e, ⟨message, emotion, now * 1000, none, none, none, none⟩)
    | some v =>
      ({ e with
          current_state := ("emotion")
          current_video_start_time := some now
          current_video_duration := some v.duration },
       ⟨message, emotion, now * 1000, none, some v.location, some v.duration,
        some expr.description⟩)

/-- Embeds `create_idle_response()`. -/
def create_idle_response (e : Engine) (now : Int) (i : Nat) (r : Int) : Engine × Response :=
  match get_random_idle_video e i r with
  | none => (e, ⟨"", ("idle"), now * 1000, some ("idle"), none, none, none⟩)
  | some v =>
    ({ e with
        current_state := ("idle")
        current_video_start_time := some now
        current_video_duration := some v.duration },
     ⟨"", ("idle"), now * 1000, some ("idle"), some v.location, some v.duration,
      some ("Waiting for interaction")⟩)

/-- Embeds `create_task_emotion_response(emotion)`. -/
def create_task_emotion_response (e : Engine) (emotion : String)
    (now : Int) (i : Nat) (r : Int) : Engine × Response :=
  match get_expression_data e emotion with
  | none => (e, ⟨"", emotion, now * 1000, some ("task_emotion"), none, none, none⟩)
  | some expr =>
    match weightedRandomSelection expr.videos i r with
    | none => (e, ⟨"", emotion, now * 1000, some ("task_emotion"), none, none, none⟩)
    | some v =>
      ({ e with
          current_state := ("task")
          current_video_start_time := some now
          current_video_duration := some v.duration },
       ⟨"", emotion, now * 1000, some ("task_emotion"), some v.location, some v.duration,
        some expr.description⟩)

/-- Embeds `go_to_sleep()`: no-op when already sleeping; deferred (flag only)
when an emotion or task clip is still playing; otherwise immediate
transition dispatching the sleep clip.  `none` models Python `None`. -/
def go_to_sleep (e : Engine) (now : Int) (i : Nat) (r : Int) : Engine × Option Response :=
  if e.is_sleeping = true then (e, none)
  else if (e.current_state = ("emotion") ∨ e.current_state = ("task")) ∧
      should_change_video e now = false then
    ({ e with sleep_pending := true }, none)
  else
    match get_expression_data e ("sleep") with
    | none =>
      ({ e with
          is_sleeping := true
          sleep_pending := false
          current_state := ("sleep") },
       some ⟨"", ("sleep"), now * 1000, some ("sleep"), none, none, none⟩)
    | some expr =>
      match weightedRandomSelection expr.videos i r with
      | none =>
        ({ e with
            is_sleeping := true
            sleep_pending := false
            current_state := ("sleep") },
         some ⟨"", ("sleep"), now * 1000, some ("sleep"), none, none, none⟩)
      | some v =>
        ({ e with
            is_sleeping := true
            sleep_pending := false
            current_state := ("sleep")
            current_video_start_time := some now
            current_video_duration := some v.duration },
         some ⟨"", ("sleep"), now * 1000, some ("sleep"), some v.location, some v.duration,
           some expr.description⟩)

/-- Embeds `wake_up()`: no-op when not sleeping; otherwise clears both sleep
flags, switches to the emotion state and dispatches the wake clip. -/
def wake_up (e : Engine) (now : Int) (i : Nat) (r : Int) : Engine × Option Response :=
  if e.is_sleeping = false then (e, none)
  else
    match get_expression_data e ("wake") with
    | none =>
      ({ e with
          is_sleeping := false
          sleep_pending := false
          current_state := ("emotion") },
       some ⟨"", ("wake"), now * 1000, some ("wake"), none, none, none⟩)
    | some expr =>
      match weightedRandomSelection expr.videos i r with
      | none =>
        ({ e with
            is_sleeping := false
            sleep_pending := false
            current_state := ("emotion") },
         some ⟨"", ("wake"), now * 1000, some ("wake"), none, none, none⟩)
      | some v =>
        ({ e with
            is_sleeping := false
            sleep_pending := false
            current_state := ("emotion")
            current_video_start_time := some now
            current_video_duration := some v.duration },
         some ⟨"", ("wake"), now * 1000, some ("wake"), some v.location, some v.duration,
           some expr.description⟩)

/-- Wraps the pair returned by one of the `create_*` helpers into the
optional-response shape of `get_next_video` (a Python method that can
also return `None`). -/
def respond (p : Engine × Response) : Engine × Option Response :=
  (p.1, some p.2)

/-- Embeds `get_next_video()`: the scheduler-facing transition function, with
the exact cascade of the source. -/
def get_next_video (e : Engine) (now : Int) (i : Nat) (r : Int) : Engine × Option Response :=
  if e.sleep_pending = true ∧ should_change_video e now = true then
    go_to_sleep e now i r
  else if e.current_state = ("sleep") ∨ e.is_sleeping = true then
    (e, none)
  else if e.current_state = ("idle") then
    respond (create_idle_response e now i r)
  else if e.current_state = ("task") ∧ e.task_queue ≠ [] then
    match e.task_queue with
    | [] => (e, none)
    | em :: rest =>
      respond (create_task_emotion_response { e with task_queue := rest } em now i r)
  else if e.current_state = ("task") ∧ e.task_queue = [] then
    respond (create_idle_response (complete_task e) now i r)
  else if e.current_state = ("emotion") then
    respond (create_idle_response
      { e with
        current_state := ("idle")
        current_video_start_time := none
        current_video_duration := none } now i r)
  else
    respond (create_idle_response { e with current_state := ("idle") } now i r)

/-- Embeds `_determine_emotion_by_rules`: candidates matched under each of the
three signal keys, in source order, concatenated. -/
def matchedCandidates (table : List (String × List String)) (key : Option String) : List String :=
  match key with
  | none => []
  | some v => (List.lookup v table).getD []

/-- All candidates collected by `_determine_emotion_by_rules`. -/
def allCandidates (e : Engine) (ctx : Context) : List String :=
  matchedCandidates e.context_mapping.error_severity ctx.error_severity ++
  matchedCandidates e.context_mapping.interaction_type ctx.interaction_type ++
  matchedCandidates e.context_mapping.user_relationship ctx.user_relationship

/-- The candidates filtered to labels present in the catalog. -/
def valid_candidates (e : Engine) (ctx : Context) : List String :=
  (allCandidates e ctx).filter (fun c => (List.lookup c e.expressions).isSome)

/-- The fallback emotions filtered to labels present in the catalog. -/
def valid_fallbacks (e : Engine) : List String :=
  e.fallback_emotions.filter (fun c => (List.lookup c e.expressions).isSome)

/-- Embeds `_determine_emotion_by_rules(context)`; the uniform draw of each
`random.choice` is modelled by the index `i` reduced modulo the
list length. -/
def determine_emotion_by_rules (e : Engine) (ctx : Context) (i : Nat) : String :=
  if h : valid_candidates e ctx ≠ [] then
    (valid_candidates e ctx).get
      ⟨i % (valid_candidates e ctx).length, Nat.mod_lt _ (List.length_pos.mpr h)⟩
  else if h2 : valid_fallbacks e ≠ [] then
    (valid_fallbacks e).get
      ⟨i % (valid_fallbacks e).length, Nat.mod_lt _ (List.length_pos.mpr h2)⟩
  else e.default_emotion

/-- Spec invariant `sleepPending ⇒ ¬isSleeping` (§3). -/
def SleepInv (e : Engine) : Prop :=
  e.sleep_pending = true → e.is_sleeping = false

/-- Spec invariant `isSleeping ⇒ mode = Sleep` (§3). -/
def ModeInv (e : Engine) : Prop :=
  e.is_sleeping = true → e.current_state = ("sleep")

/-- States reachable from a freshly initialised engine through the
public operations of the Engine (spec §4.2). -/
inductive Reachable : Engine → Prop
  | init (exprs : List (String × PersonalityExpression)) (cm : ContextMapping)
      (fb : List String) (idles : List VideoInfo) :
      Reachable (initEngine exprs cm fb idles)
  | stepStartTask (e : Engine) (em : String) :
      Reachable e → Reachable (start_task e em)
  | stepAddTaskEmotion (e : Engine) (em : String) :
      Reachable e → Reachable (add_task_emotion e em)
  | stepCompleteTask (e : Engine) :
      Reachable e → Reachable (complete_task e)
  | stepRecordResponse (e : Engine) (msg em : String) (now : Int) (i : Nat) (r : Int) :
      Reachable e → Reachable (create_personality_response e msg em now i r).1
  | stepGoToSleep (e : Engine) (now : Int) (i : Nat) (r : Int) :
      Reachable e → Reachable (go_to_sleep e now i r).1
  | stepWakeUp (e : Engine) (now : Int) (i : Nat) (r : Int) :
      Reachable e → Reachable (wake_up e now i r).1
  | stepNextClip (e : Engine) (now : Int) (i : Nat) (r : Int) :
      Reachable e → Reachable (get_next_video e now i r).1

/-! Concrete fixtures used by counterexamples and witnesses. -/

def clipA : VideoInfo := ⟨("a.mp4"), 4, 2⟩

def clipB : VideoInfo := ⟨("b.mp4"), 6, 3⟩

def clipI : VideoInfo := ⟨("idle.mp4"), 8, 10⟩

def clipS : VideoInfo := ⟨("sleep.mp4"), 12, 10⟩

def clipN : VideoInfo := ⟨("neutral.mp4"), 3, 10⟩

def exprA : PersonalityExpression := ⟨[clipA], ("joyful clip set"), []⟩

def exprB : PersonalityExpression := ⟨[clipB], ("sad clip set"), []⟩

def exprS : PersonalityExpression := ⟨[clipS], ("sleep clip set"), []⟩

def exprN : PersonalityExpression := ⟨[clipN], ("neutral clip set"), []⟩

def cmEmpty : ContextMapping := ⟨[], [], []⟩

def baseCatalog : List (String × PersonalityExpression) :=
  [(("joy"), exprA), (("sad"), exprB), (("sleep"), exprS), (("neutral"), exprN)]

/-- A freshly initialised engine over the base catalog. -/
def engine0 : Engine := initEngine baseCatalog cmEmpty [("neutral")] [clipI]

/-- Idle engine with an active, unexpired clip (started at 0, 10s long). -/
def e2idle : Engine :=
  { engine0 with current_video_start_time := some 0, current_video_duration := some 10 }

/-- Emotion engine with an active clip of duration 10 started at 0
(the spec §8 sleep-deferral scenario). -/
def e2w : Engine :=
  { engine0 with
    current_state := ("emotion")
    current_video_start_time := some 0
    current_video_duration := some 10 }

/-- Task engine with a queued label and an active, unexpired clip. -/
def e3pre : Engine :=
  { engine0 with
    current_state := ("task")
    task_queue := [("calm")]
    current_video_start_time := some 0
    current_video_duration := some 10 }

/-- Sleeping engine reached by `go_to_sleep` from a fresh engine. -/
def e4sleep : Engine := (go_to_sleep (initEngine [] cmEmpty [] []) 0 0 1).1

/-- State after `start_task` invoked on a sleeping engine. -/
def e4bad : Engine := start_task e4sleep ("joy")

/-- Task engine whose queued label is absent from the catalog. -/
def e6task : Engine :=
  { engine0 with current_state := ("task"), task_queue := [("bogus")] }

/-- Rule table in which the label `joy` is matched under two signal
keys at once. -/
def cm9 : ContextMapping :=
  ⟨[(("high"), [("joy")])], [(("warn"), [("joy"), ("sad")])], []⟩

def e9 : Engine := initEngine baseCatalog cm9 [("neutral")] [clipI]

def ctx9 : Context := ⟨some ("high"), some ("warn"), none⟩

/-- Task engine with the two-label queue of the spec §8 scenario. -/
def eC1 : Engine :=
  { engine0 with current_state := ("task"), task_queue := [("joy"), ("sad")] }

theorem totalWeight_cons (v : VideoInfo) (rest : List VideoInfo) :
    totalWeight (v :: rest) = v.weight + totalWeight rest := by
  simp [totalWeight]

theorem cumWeight_cons (v : VideoInfo) (rest : List VideoInfo) (n : Nat) :
    cumWeight (v :: rest) (n + 1) = v.weight + cumWeight rest n := by
  simp [cumWeight]

theorem walkWeights_mem (videos : List VideoInfo) (r cum : Int) (v : VideoInfo)
    (h : walkWeights videos r cum = some v) : v ∈ videos := by
  induction videos generalizing cum with
  | nil => simp [walkWeights] at h
  | cons w rest ih =>
    rw [walkWeights] at h
    by_cases hle : r ≤ cum + w.weight
    · rw [if_pos hle] at h
      simp at h
      simp [h]
    · rw [if_neg hle] at h
      exact List.mem_cons_of_mem _ (ih _ h)

theorem walkWeights_first (videos : List VideoInfo) (r cum : Int)
    (h : r ≤ cum + totalWeight videos) (hne : videos ≠ []) :
    ∃ k, ∃ hk : k < videos.length,
      walkWeights videos r cum = some (videos.get ⟨k, hk⟩) ∧
      r ≤ cum + cumWeight videos (k + 1) ∧
      ∀ j < k, cum + cumWeight videos (j + 1) < r := by
  induction videos generalizing cum with
  | nil => exact absurd rfl hne
  | cons v rest ih =>
    by_cases hle : r ≤ cum + v.weight
    · refine ⟨0, by simp, ?_, ?_, ?_⟩
      · simp [walkWeights, if_pos hle]
      · simpa [cumWeight_cons, cumWeight] using hle
      · intro j hj; omega
    · have hrest : rest ≠ [] := by
        intro hemp
        subst hemp
        simp [totalWeight_cons, totalWeight] at h
        exact hle h
      have hsum : r ≤ (cum + v.weight) + totalWeight rest := by
        rw [totalWeight_cons] at h; omega
      obtain ⟨k, hk, heq, hub, hlt⟩ := ih (cum + v.weight) hsum hrest
      refine ⟨k + 1, by simpa using Nat.succ_lt_succ hk, ?_, ?_, ?_⟩
      · simpa [walkWeights, if_neg hle] using heq
      · rw [cumWeight_cons]; omega
      · intro j hj
        match j with
        | 0 =>
          have : cumWeight (v :: rest) 1 = v.weight := by simp [cumWeight]
          rw [this]; omega
        | Nat.succ j' =>
          have hj' : j' < k := by omega
          have := hlt j' hj'
          rw [cumWeight_cons]; omega

theorem weightedRandomSelection_mem (videos : List VideoInfo) (i : Nat) (r : Int)
    (hne : videos ≠ []) :
    ∃ v ∈ videos, weightedRandomSelection videos i r = some v := by
  rw [weightedRandomSelection, if_neg hne]
  by_cases htot : totalWeight videos ≤ 0
  · rw [if_pos htot]
    have hlen : 0 < videos.length := List.length_pos.mpr hne
    have hlt : i % videos.length < videos.length := Nat.mod_lt _ hlen
    refine ⟨videos.get ⟨i % videos.length, hlt⟩, List.get_mem _ _ hlt, ?_⟩
    simp [List.getElem?_eq_getElem hlt]
  · rw [if_neg htot]
    cases hw : walkWeights videos r 0 with
    | some v => exact ⟨v, walkWeights_mem _ _ _ _ hw, rfl⟩
    | none =>
      have : videos.getLast? = some (videos.getLast hne) := List.getLast?_eq_getLast _ hne
      exact ⟨videos.getLast hne, List.getLast_mem hne, by rw [this]⟩

/-- C5: for every non-empty clip list the weighted selector returns a
member of the list; when the total weight is ≤ 0 it returns the clip at
the uniformly drawn index; otherwise, for a drawn value `r` in
`[1, totalWeight]`, it returns the first clip in list order whose
cumulative weight is ≥ `r`. -/
theorem C5_weighted_selector (videos : List VideoInfo) (i : Nat) (r : Int)
    (hne : videos ≠ []) :
    (∃ v ∈ videos, weightedRandomSelection videos i r = some v) ∧
    (totalWeight videos ≤ 0 →
      weightedRandomSelection videos i r = videos[i % videos.length]?) ∧
    (0 < totalWeight videos → 1 ≤ r → r ≤ totalWeight videos →
      ∃ k, ∃ hk : k < videos.length,
        weightedRandomSelection videos i r = some (videos.get ⟨k, hk⟩) ∧
        r ≤ cumWeight videos (k + 1) ∧
        ∀ j < k, cumWeight videos (j + 1) < r) := by
  refine ⟨weightedRandomSelection_mem videos i r hne, ?_, ?_⟩
  · intro htot
    rw [weightedRandomSelection, if_neg hne, if_pos htot]
  · intro htot h1 h2
    have hsum : r ≤ 0 + totalWeight videos := by omega
    obtain ⟨k, hk, heq, hub, hlt⟩ := walkWeights_first videos r 0 hsum hne
    refine ⟨k, hk, ?_, by omega, fun j hj => by have := hlt j hj; omega⟩
    rw [weightedRandomSelection, if_neg hne, if_neg (by omega), heq]

theorem C5_witness :
    (∃ v ∈ [clipA, clipB], weightedRandomSelection [clipA, clipB] 0 3 = some v) ∧
    (∃ k, ∃ hk : k < ([clipA, clipB] : List VideoInfo).length,
      weightedRandomSelection [clipA, clipB] 0 3 = some ([clipA, clipB].get ⟨k, hk⟩) ∧
      (3 : Int) ≤ cumWeight [clipA, clipB] (k + 1) ∧
      ∀ j < k, cumWeight [clipA, clipB] (j + 1) < 3) :=
  ⟨(C5_weighted_selector [clipA, clipB] 0 3 (by decide)).1,
   (C5_weighted_selector [clipA, clipB] 0 3 (by decide)).2.2 (by decide) (by decide)
     (by decide)⟩

/-- C10: the weighted selector on an empty list returns `none` rather
than failing, and requesting an idle clip when the idle collection is
empty also returns `none`. -/
theorem C10_empty_selection_safe (e : Engine) (i : Nat) (r : Int) :
    weightedRandomSelection [] i r = none ∧
    (e.idle_videos = [] → get_random_idle_video e i r = none) := by
  constructor
  · rw [weightedRandomSelection, if_pos rfl]
  · intro h
    simp [get_random_idle_video, h]

theorem C10_witness :
    weightedRandomSelection [] 0 1 = none ∧
    get_random_idle_video (initEngine [] cmEmpty [] []) 0 1 = none :=
  ⟨(C10_empty_selection_safe (initEngine [] cmEmpty [] []) 0 1).1,
   (C10_empty_selection_safe (initEngine [] cmEmpty [] []) 0 1).2 rfl⟩

/-- C7: `complete_task` yields the idle state with an empty queue and
cleared timing, and it is idempotent. -/
theorem C7_complete_task_idempotent (e : Engine) :
    (complete_task e).current_state = ("idle") ∧
    (complete_task e).task_queue = [] ∧
    (complete_task e).current_video_start_time = none ∧
    (complete_task e).current_video_duration = none ∧
    complete_task (complete_task e) = complete_task e :=
  ⟨rfl, rfl, rfl, rfl, rfl⟩

/-- C8: `add_task_emotion` is a no-op (every field unchanged) outside
task mode, and in task mode appends the label to the queue and changes
nothing else. -/
theorem C8_add_task_emotion_frame (e : Engine) (em : String) :
    (e.current_state ≠ ("task") → add_task_emotion e em = e) ∧
    (e.current_state = ("task") →
      add_task_emotion e em = { e with task_queue := e.task_queue ++ [em] }) := by
  constructor
  · intro h
    rw [add_task_emotion, if_neg h]
  · intro h
    rw [add_task_emotion, if_pos h]

theorem C8_witness :
    add_task_emotion engine0 ("joy") = engine0 ∧
    add_task_emotion e6task ("joy") = { e6task with task_queue := e6task.task_queue ++ [("joy")] } :=
  ⟨(C8_add_task_emotion_frame engine0 ("joy")).1 (by decide),
   (C8_add_task_emotion_frame e6task ("joy")).2 rfl⟩

/-- C3 counterexample: `start_task` on a state with a queued label and
an active unexpired clip neither resets the queue to the single new
label nor clears the timing (the clip started at 0 with duration 10 is
still considered running at time 2). -/
theorem C3_counterexample :
    (start_task e3pre ("joy")).task_queue = [("calm"), ("joy")] ∧
    (start_task e3pre ("joy")).task_queue ≠ [("joy")] ∧
    (start_task e3pre ("joy")).current_video_start_time = some 0 ∧
    should_change_video (start_task e3pre ("joy")) 2 = false := by
  refine ⟨rfl, by decide, rfl, by decide⟩

/-- C3 amended: `start_task` sets the mode to task and appends the
label to the end of the existing queue, leaving every other field —
including the active-clip timing — unchanged. -/
theorem C3_start_task_amended (e : Engine) (em : String) :
    start_task e em =
      { e with current_state := ("task"), task_queue := e.task_queue ++ [em] } :=
  rfl

theorem weightedRandomSelection_mem_of_eq (videos : List VideoInfo) (i : Nat) (r : Int)
    (v : VideoInfo) (h : weightedRandomSelection videos i r = some v) : v ∈ videos := by
  rw [weightedRandomSelection] at h
  by_cases hne : videos = []
  · rw [if_pos hne] at h
    cases h
  · rw [if_neg hne] at h
    by_cases htot : totalWeight videos ≤ 0
    · rw [if_pos htot] at h
      exact List.getElem?_mem h
    · rw [if_neg htot] at h
      cases hw : walkWeights videos r 0 with
      | some w =>
        rw [hw] at h
        cases h
        exact walkWeights_mem _ _ _ _ hw
      | none =>
        rw [hw] at h
        exact List.mem_of_mem_getLast? h

theorem respond_fst (p : Engine × Response) : (respond p).1 = p.1 := rfl

theorem respond_snd (p : Engine × Response) : (respond p).2 = some p.2 := rfl

/-- What `create_idle_response` does when the idle collection is
non-empty: it dispatches some idle clip and starts its timing. -/
theorem create_idle_dispatch (e : Engine) (now : Int) (i : Nat) (r : Int)
    (hidle : e.idle_videos ≠ []) :
    ∃ v ∈ e.idle_videos,
      create_idle_response e now i r =
        ({ e with
            current_state := ("idle")
            current_video_start_time := some now
            current_video_duration := some v.duration },
         ⟨"", ("idle"), now * 1000, some ("idle"), some v.location, some v.duration,
          some ("Waiting for interaction")⟩) := by
  obtain ⟨v, hv, hsel⟩ := weightedRandomSelection_mem e.idle_videos i r hidle
  have hg : get_random_idle_video e i r = some v := by
    rw [get_random_idle_video, if_pos hidle, hsel]
  refine ⟨v, hv, ?_⟩
  simp only [create_idle_response, hg]

/-- What `create_task_emotion_response` does when the label is in the
catalog with a non-empty clip list. -/
theorem create_task_dispatch (e : Engine) (em : String) (now : Int) (i : Nat) (r : Int)
    (expr : PersonalityExpression) (hex : get_expression_data e em = some expr)
    (hvne : expr.videos ≠ []) :
    ∃ v ∈ expr.videos,
      create_task_emotion_response e em now i r =
        ({ e with
            current_state := ("task")
            current_video_start_time := some now
            current_video_duration := some v.duration },
         ⟨"", em, now * 1000, some ("task_emotion"), some v.location, some v.duration,
          some expr.description⟩) := by
  obtain ⟨v, hv, hsel⟩ := weightedRandomSelection_mem expr.videos i r hvne
  refine ⟨v, hv, ?_⟩
  simp only [create_task_emotion_response, hex, hsel]

/-- Branch of `get_next_video` taken in task state with a non-empty
queue: the head label is popped and its clip dispatched. -/
theorem next_video_task_cons (e : Engine) (now : Int) (i : Nat) (r : Int)
    (em : String) (rest : List String) (expr : PersonalityExpression)
    (hsp : e.sleep_pending = false) (hsl : e.is_sleeping = false)
    (hcs : e.current_state = ("task")) (hq : e.task_queue = em :: rest)
    (hex : get_expression_data e em = some expr) (hvne : expr.videos ≠ []) :
    ∃ v ∈ expr.videos,
      get_next_video e now i r =
        ({ e with
            current_state := ("task")
            task_queue := rest
            current_video_start_time := some now
            current_video_duration := some v.duration },
         some ⟨"", em, now * 1000, some ("task_emotion"), some v.location, some v.duration,
           some expr.description⟩) := by
  have hstep : get_next_video e now i r =
      respond (create_task_emotion_response { e with task_queue := rest } em now i r) := by
    rw [get_next_video, if_neg (by simp [hsp]), if_neg (by simp [hcs, hsl]),
      if_neg (by simp [hcs]), if_pos ⟨hcs, by simp [hq]⟩, hq]
  have hex2 : get_expression_data { e with task_queue := rest } em = some expr := hex
  obtain ⟨v, hv, hdis⟩ :=
    create_task_dispatch { e with task_queue := rest } em now i r expr hex2 hvne
  refine ⟨v, hv, ?_⟩
  rw [hstep, hdis]
  rfl

/-- Branch of `get_next_video` taken in task state with an empty queue:
the task completes and an idle clip is dispatched. -/
theorem next_video_task_empty (e : Engine) (now : Int) (i : Nat) (r : Int)
    (hsp : e.sleep_pending = false) (hsl : e.is_sleeping = false)
    (hcs : e.current_state = ("task")) (hq : e.task_queue = [])
    (hidle : e.idle_videos ≠ []) :
    ∃ v ∈ e.idle_videos,
      get_next_video e now i r =
        ({ e with
            current_state := ("idle")
            task_queue := []
            current_video_start_time := some now
            current_video_duration := some v.duration },
         some ⟨"", ("idle"), now * 1000, some ("idle"), some v.location, some v.duration,
           some ("Waiting for interaction")⟩) := by
  have hstep : get_next_video e now i r =
      respond (create_idle_response (complete_task e) now i r) := by
    rw [get_next_video, if_neg (by simp [hsp]), if_neg (by simp [hcs, hsl]),
      if_neg (by simp [hcs]), if_neg (by simp [hq]), if_pos ⟨hcs, hq⟩]
  have hidle2 : (complete_task e).idle_videos ≠ [] := hidle
  obtain ⟨v, hv, hdis⟩ := create_idle_dispatch (complete_task e) now i r hidle2
  refine ⟨v, hv, ?_⟩
  rw [hstep, hdis]
  rfl

/-- Branch of `get_next_video` taken in emotion state: fall back to
idle, clear the finished clip timing, dispatch an idle clip. -/
theorem next_video_emotion (e : Engine) (now : Int) (i : Nat) (r : Int)
    (hsp : e.sleep_pending = false) (hsl : e.is_sleeping = false)
    (hcs : e.current_state = ("emotion")) (hidle : e.idle_videos ≠ []) :
    ∃ v ∈ e.idle_videos,
      get_next_video e now i r =
        ({ e with
            current_state := ("idle")
            current_video_start_time := some now
            current_video_duration := some v.duration },
         some ⟨"", ("idle"), now * 1000, some ("idle"), some v.location, some v.duration,
           some ("Waiting for interaction")⟩) := by
  have hstep : get_next_video e now i r =
      respond (create_idle_response
        { e with
          current_state := ("idle")
          current_video_start_time := none
          current_video_duration := none } now i r) := by
    rw [get_next_video, if_neg (by simp [hsp]), if_neg (by simp [hcs, hsl]),
      if_neg (by simp [hcs]), if_neg (by simp [hcs]), if_neg (by simp [hcs]),
      if_pos hcs]
  have hidle2 :
      ({ e with
          current_state := ("idle")
          current_video_start_time := none
          current_video_duration := none } : Engine).idle_videos ≠ [] := hidle
  obtain ⟨v, hv, hdis⟩ := create_idle_dispatch
    { e with
      current_state := ("idle")
      current_video_start_time := none
      current_video_duration := none } now i r hidle2
  refine ⟨v, hv, ?_⟩
  rw [hstep, hdis]
  rfl

/-- Branch of `get_next_video` taken in idle state: keep idling. -/
theorem next_video_idle (e : Engine) (now : Int) (i : Nat) (r : Int)
    (hsp : e.sleep_pending = false) (hsl : e.is_sleeping = false)
    (hcs : e.current_state = ("idle")) (hidle : e.idle_videos ≠ []) :
    ∃ v ∈ e.idle_videos,
      get_next_video e now i r =
        ({ e with
            current_state := ("idle")
            current_video_start_time := some now
            current_video_duration := some v.duration },
         some ⟨"", ("idle"), now * 1000, some ("idle"), some v.location, some v.duration,
           some ("Waiting for interaction")⟩) := by
  have hstep : get_next_video e now i r =
      respond (create_idle_response e now i r) := by
    rw [get_next_video, if_neg (by simp [hsp]), if_neg (by simp [hcs, hsl]),
      if_pos hcs]
  obtain ⟨v, hv, hdis⟩ := create_idle_dispatch e now i r hidle
  refine ⟨v, hv, ?_⟩
  rw [hstep, hdis]
  rfl

/-- C1: for every engine state that is neither sleeping nor
sleep-pending, `get_next_video` follows the specified case order: in
task state with a non-empty queue it pops the head label and returns a
clip from that label's entry keeping task state; in task state with an
empty queue it completes the task and returns an idle clip in idle
state; in emotion state it returns to idle and dispatches an idle clip
with fresh timing; in idle state it returns an idle clip and stays
idle.  In particular, for a task queue `[a, b]` three successive calls
return a clip from `a`'s set, then `b`'s set, then an idle clip with
the engine left in idle state. -/
theorem C1_next_clip_case_order (e : Engine) (now now2 now3 : Int) (i i2 i3 : Nat)
    (r r2 r3 : Int)
    (hsp : e.sleep_pending = false) (hsl : e.is_sleeping = false)
    (hidle : e.idle_videos ≠ []) :
    (∀ em rest expr, e.current_state = ("task") → e.task_queue = em :: rest →
      get_expression_data e em = some expr → expr.videos ≠ [] →
      ∃ v ∈ expr.videos,
        get_next_video e now i r =
          ({ e with
              current_state := ("task")
              task_queue := rest
              current_video_start_time := some now
              current_video_duration := some v.duration },
           some ⟨"", em, now * 1000, some ("task_emotion"), some v.location,
             some v.duration, some expr.description⟩)) ∧
    (e.current_state = ("task") → e.task_queue = [] →
      ∃ v ∈ e.idle_videos,
        get_next_video e now i r =
          ({ e with
              current_state := ("idle")
              task_queue := []
              current_video_start_time := some now
              current_video_duration := some v.duration },
           some ⟨"", ("idle"), now * 1000, some ("idle"), some v.location,
             some v.duration, some ("Waiting for interaction")⟩)) ∧
    (e.current_state = ("emotion") →
      ∃ v ∈ e.idle_videos,
        get_next_video e now i r =
          ({ e with
              current_state := ("idle")
              current_video_start_time := some now
              current_video_duration := some v.duration },
           some ⟨"", ("idle"), now * 1000, some ("idle"), some v.location,
             some v.duration, some ("Waiting for interaction")⟩)) ∧
    (e.current_state = ("idle") →
      ∃ v ∈ e.idle_videos,
        get_next_video e now i r =
          ({ e with
              current_state := ("idle")
              current_video_start_time := some now
              current_video_duration := some v.duration },
           some ⟨"", ("idle"), now * 1000, some ("idle"), some v.location,
             some v.duration, some ("Waiting for interaction")⟩)) ∧
    (∀ a b ea eb, e.current_state = ("task") → e.task_queue = [a, b] →
      get_expression_data e a = some ea → ea.videos ≠ [] →
      get_expression_data e b = some eb → eb.videos ≠ [] →
      ∃ va ∈ ea.videos, ∃ vb ∈ eb.videos, ∃ vi ∈ e.idle_videos,
        get_next_video e now i r =
          ({ e with
              current_state := ("task")
              task_queue := [b]
              current_video_start_time := some now
              current_video_duration := some va.duration },
           some ⟨"", a, now * 1000, some ("task_emotion"), some va.location,
             some va.duration, some ea.description⟩) ∧
        get_next_video
          { e with
            current_state := ("task")
            task_queue := [b]
            current_video_start_time := some now
            current_video_duration := some va.duration } now2 i2 r2 =
          ({ e with
              current_state := ("task")
              task_queue := []
              current_video_start_time := some now2
              current_video_duration := some vb.duration },
           some ⟨"", b, now2 * 1000, some ("task_emotion"), some vb.location,
             some vb.duration, some eb.description⟩) ∧
        get_next_video
          { e with
            current_state := ("task")
            task_queue := []
            current_video_start_time := some now2
            current_video_duration := some vb.duration } now3 i3 r3 =
          ({ e with
              current_state := ("idle")
              task_queue := []
              current_video_start_time := some now3
              current_video_duration := some vi.duration },
           some ⟨"", ("idle"), now3 * 1000, some ("idle"), some vi.location,
             some vi.duration, some ("Waiting for interaction")⟩)) := by
  refine ⟨?_, ?_, ?_, ?_, ?_⟩
  · intro em rest expr hcs hq hex hvne
    exact next_video_task_cons e now i r em rest expr hsp hsl hcs hq hex hvne
  · intro hcs hq
    exact next_video_task_empty e now i r hsp hsl hcs hq hidle
  · intro hcs
    exact next_video_emotion e now i r hsp hsl hcs hidle
  · intro hcs
    exact next_video_idle e now i r hsp hsl hcs hidle
  · intro a b ea eb hcs hq hexa hvnea hexb hvneb
    obtain ⟨va, hva, h1⟩ :=
      next_video_task_cons e now i r a [b] ea hsp hsl hcs hq hexa hvnea
    obtain ⟨vb, hvb, h2⟩ :=
      next_video_task_cons
        { e with
          current_state := ("task")
          task_queue := [b]
          current_video_start_time := some now
          current_video_duration := some va.duration } now2 i2 r2 b [] eb
        hsp hsl rfl rfl hexb hvneb
    obtain ⟨vi, hvi, h3⟩ :=
      next_video_task_empty
        { e with
          current_state := ("task")
          task_queue := []
          current_video_start_time := some now2
          current_video_duration := some vb.duration } now3 i3 r3
        hsp hsl rfl rfl hidle
    exact ⟨va, hva, vb, hvb, vi, hvi, h1, h2, h3⟩

theorem C1_witness :
    ∃ va ∈ exprA.videos, ∃ vb ∈ exprB.videos, ∃ vi ∈ eC1.idle_videos,
      get_next_video eC1 0 0 1 =
        ({ eC1 with
            current_state := ("task")
            task_queue := [("sad")]
            current_video_start_time := some 0
            current_video_duration := some va.duration },
         some ⟨"", ("joy"), 0 * 1000, some ("task_emotion"), some va.location,
           some va.duration, some exprA.description⟩) ∧
      get_next_video
        { eC1 with
          current_state := ("task")
          task_queue := [("sad")]
          current_video_start_time := some 0
          current_video_duration := some va.duration } 10 0 1 =
        ({ eC1 with
            current_state := ("task")
            task_queue := []
            current_video_start_time := some 10
            current_video_duration := some vb.duration },
         some ⟨"", ("sad"), 10 * 1000, some ("task_emotion"), some vb.location,
           some vb.duration, some exprB.description⟩) ∧
      get_next_video
        { eC1 with
          current_state := ("task")
          task_queue := []
          current_video_start_time := some 10
          current_video_duration := some vb.duration } 20 0 1 =
        ({ eC1 with
            current_state := ("idle")
            task_queue := []
            current_video_start_time := some 20
            current_video_duration := some vi.duration },
         some ⟨"", ("idle"), 20 * 1000, some ("idle"), some vi.location,
           some vi.duration, some ("Waiting for interaction")⟩) :=
  (C1_next_clip_case_order eC1 0 10 20 0 0 0 1 1 1 rfl rfl (by decide)).2.2.2.2
    ("joy") ("sad") exprA exprB rfl rfl (by decide) (by decide) (by decide) (by decide)

/-- C2 counterexample: in idle state with an active clip that has not
yet expired (started at 0, duration 10, queried at time 2), the claim
says `go_to_sleep` defers (sets only `sleep_pending` and changes
nothing else); the code instead sleeps immediately: `sleep_pending`
stays false, `is_sleeping` becomes true and the state changes to
sleep. -/
theorem C2_counterexample :
    e2idle.current_state = ("idle") ∧
    should_change_video e2idle 2 = false ∧
    (go_to_sleep e2idle 2 0 1).1.sleep_pending = false ∧
    (go_to_sleep e2idle 2 0 1).1.is_sleeping = true ∧
    (go_to_sleep e2idle 2 0 1).1.current_state = ("sleep") := by
  refine ⟨rfl, by decide, by decide, by decide, by decide⟩

/-- C2 amended: `go_to_sleep` is a no-op returning nothing when already
sleeping; it defers (sets `sleep_pending`, changes nothing else and
returns nothing) exactly when the state is emotion or task and the
active clip has not expired — in idle state an unexpired clip does not
defer the transition; in every other non-sleeping situation it sleeps
immediately (`is_sleeping` true, `sleep_pending` false, sleep state,
returning the sleep clip when the catalog has one); and a
`get_next_video` call made while `sleep_pending` holds and the active
clip has expired performs exactly the `go_to_sleep` transition. -/
theorem C2_go_to_sleep_amended (e : Engine) (now : Int) (i : Nat) (r : Int) :
    (e.is_sleeping = true → go_to_sleep e now i r = (e, none)) ∧
    (e.is_sleeping = false →
      (e.current_state = ("emotion") ∨ e.current_state = ("task")) →
      should_change_video e now = false →
      go_to_sleep e now i r = ({ e with sleep_pending := true }, none)) ∧
    (e.is_sleeping = false →
      ¬((e.current_state = ("emotion") ∨ e.current_state = ("task")) ∧
        should_change_video e now = false) →
      (go_to_sleep e now i r).1.is_sleeping = true ∧
      (go_to_sleep e now i r).1.sleep_pending = false ∧
      (go_to_sleep e now i r).1.current_state = ("sleep") ∧
      (∀ expr, get_expression_data e ("sleep") = some expr → expr.videos ≠ [] →
        ∃ v ∈ expr.videos,
          (go_to_sleep e now i r).2 =
            some ⟨"", ("sleep"), now * 1000, some ("sleep"), some v.location,
              some v.duration, some expr.description⟩)) ∧
    (e.sleep_pending = true → should_change_video e now = true →
      get_next_video e now i r = go_to_sleep e now i r) := by
  refine ⟨?_, ?_, ?_, ?_⟩
  · intro h1
    rw [go_to_sleep, if_pos h1]
  · intro h1 h2 h3
    rw [go_to_sleep, if_neg (by simp [h1]), if_pos ⟨h2, h3⟩]
  · intro h1 h2
    cases hx : get_expression_data e ("sleep") with
    | none =>
      have hgo : go_to_sleep e now i r =
          ({ e with
              is_sleeping := true
              sleep_pending := false
              current_state := ("sleep") },
           some ⟨"", ("sleep"), now * 1000, some ("sleep"), none, none, none⟩) := by
        rw [go_to_sleep, if_neg (by simp [h1]), if_neg h2]
        simp only [hx]
      rw [hgo]
      refine ⟨rfl, rfl, rfl, ?_⟩
      intro expr hex
      simp at hex
    | some expr0 =>
      cases hy : weightedRandomSelection expr0.videos i r with
      | none =>
        have hgo : go_to_sleep e now i r =
            ({ e with
                is_sleeping := true
                sleep_pending := false
                current_state := ("sleep") },
             some ⟨"", ("sleep"), now * 1000, some ("sleep"), none, none, none⟩) := by
          rw [go_to_sleep, if_neg (by simp [h1]), if_neg h2]
          simp only [hx, hy]
        rw [hgo]
        refine ⟨rfl, rfl, rfl, ?_⟩
        intro expr hex hvne
        injection hex with h
        subst h
        obtain ⟨v, _, hsel⟩ := weightedRandomSelection_mem expr0.videos i r hvne
        rw [hy] at hsel
        cases hsel
      | some v =>
        have hgo : go_to_sleep e now i r =
            ({ e with
                is_sleeping := true
                sleep_pending := false
                current_state := ("sleep")
                current_video_start_time := some now
                current_video_duration := some v.duration },
             some ⟨"", ("sleep"), now * 1000, some ("sleep"), some v.location,
               some v.duration, some expr0.description⟩) := by
          rw [go_to_sleep, if_neg (by simp [h1]), if_neg h2]
          simp only [hx, hy]
        rw [hgo]
        refine ⟨rfl, rfl, rfl, ?_⟩
        intro expr hex hvne
        injection hex with h
        subst h
        exact ⟨v, weightedRandomSelection_mem_of_eq expr0.videos i r v hy, rfl⟩
  · intro h1 h2
    rw [get_next_video, if_pos ⟨h1, h2⟩]

theorem C2_witness :
    go_to_sleep e2w 2 0 1 = ({ e2w with sleep_pending := true }, none) ∧
    get_next_video { e2w with sleep_pending := true } 11 0 1 =
      go_to_sleep { e2w with sleep_pending := true } 11 0 1 ∧
    (go_to_sleep { e2w with sleep_pending := true } 11 0 1).1.is_sleeping = true ∧
    (go_to_sleep { e2w with sleep_pending := true } 11 0 1).1.sleep_pending = false ∧
    (go_to_sleep { e2w with sleep_pending := true } 11 0 1).1.current_state = ("sleep") ∧
    ∃ v ∈ exprS.videos,
      (go_to_sleep { e2w with sleep_pending := true } 11 0 1).2 =
        some ⟨"", ("sleep"), 11 * 1000, some ("sleep"), some v.location, some v.duration,
          some exprS.description⟩ := by
  have h1 := C2_go_to_sleep_amended e2w 2 0 1
  have h2 := C2_go_to_sleep_amended { e2w with sleep_pending := true } 11 0 1
  have h3 := h2.2.2.1 rfl (by decide)
  exact ⟨h1.2.1 rfl (Or.inl rfl) (by decide), h2.2.2.2 rfl (by decide),
    h3.1, h3.2.1, h3.2.2.1, h3.2.2.2 exprS (by decide) (by decide)⟩

/-- C6 counterexample: the catalog of `engine0` holds the default label
`neutral` with a clip, yet requesting the unknown label `bogus` through
`create_personality_response`, or dispatching it from the task queue in
`get_next_video`, yields a response with no clip at all — the code does
not fall back to the default label's clips. -/
theorem C6_counterexample :
    get_expression_data engine0 ("bogus") = none ∧
    get_expression_data engine0 ("neutral") = some exprN ∧
    (create_personality_response engine0 ("hi") ("bogus") 0 0 1).2.video = none ∧
    (get_next_video e6task 0 0 1).2 =
      some ⟨"", ("bogus"), 0, some ("task_emotion"), none, none, none⟩ := by
  refine ⟨by decide, by decide, by decide, by decide⟩

/-- C6 amended: for a label absent from the catalog the operations do
not raise, but they also do not fall back to the default label:
`create_personality_response` returns the unchanged state with a
response carrying the label and no clip keys, and the task-emotion
dispatch inside `get_next_video` pops the label and returns a response
with no clip keys. -/
theorem C6_unknown_label_amended (e : Engine) (msg em : String) (now : Int) (i : Nat)
    (r : Int) (hex : get_expression_data e em = none) :
    create_personality_response e msg em now i r =
      (e, ⟨msg, em, now * 1000, none, none, none, none⟩) ∧
    (∀ rest, e.sleep_pending = false → e.is_sleeping = false →
      e.current_state = ("task") → e.task_queue = em :: rest →
      get_next_video e now i r =
        ({ e with task_queue := rest },
         some ⟨"", em, now * 1000, some ("task_emotion"), none, none, none⟩)) := by
  constructor
  · simp only [create_personality_response, hex]
  · intro rest hsp hsl hcs hq
    have hstep : get_next_video e now i r =
        respond (create_task_emotion_response { e with task_queue := rest } em now i r) := by
      rw [get_next_video, if_neg (by simp [hsp]), if_neg (by simp [hcs, hsl]),
        if_neg (by simp [hcs]), if_pos ⟨hcs, by simp [hq]⟩, hq]
    have hex2 : get_expression_data { e with task_queue := rest } em = none := hex
    rw [hstep]
    simp only [create_task_emotion_response, hex2]
    rfl

theorem C6_witness :
    create_personality_response engine0 ("hi") ("bogus") 5 0 1 =
      (engine0, ⟨("hi"), ("bogus"), 5 * 1000, none, none, none, none⟩) ∧
    get_next_video e6task 5 0 1 =
      ({ e6task with task_queue := [] },
       some ⟨"", ("bogus"), 5 * 1000, some ("task_emotion"), none, none, none⟩) := by
  have h := C6_unknown_label_amended engine0 ("hi") ("bogus") 5 0 1 (by decide)
  have h2 := C6_unknown_label_amended e6task ("hi") ("bogus") 5 0 1 (by decide)
  exact ⟨h.1, h2.2 [] rfl rfl rfl rfl⟩

theorem sleepInv_init (exprs : List (String × PersonalityExpression)) (cm : ContextMapping)
    (fb : List String) (idles : List VideoInfo) :
    SleepInv (initEngine exprs cm fb idles) := by
  intro h
  rfl

theorem sleepInv_start_task (e : Engine) (em : String) (h : SleepInv e) :
    SleepInv (start_task e em) := h

theorem sleepInv_add_task_emotion (e : Engine) (em : String) (h : SleepInv e) :
    SleepInv (add_task_emotion e em) := by
  unfold add_task_emotion
  split
  · exact h
  · exact h

theorem sleepInv_complete_task (e : Engine) (h : SleepInv e) :
    SleepInv (complete_task e) := h

theorem sleepInv_cpr (e : Engine) (msg em : String) (now : Int) (i : Nat) (r : Int)
    (h : SleepInv e) : SleepInv (create_personality_response e msg em now i r).1 := by
  unfold create_personality_response
  split
  · exact h
  · split
    · exact h
    · exact h

theorem sleepInv_cir (e : Engine) (now : Int) (i : Nat) (r : Int)
    (h : SleepInv e) : SleepInv (create_idle_response e now i r).1 := by
  unfold create_idle_response
  split
  · exact h
  · exact h

theorem sleepInv_cter (e : Engine) (em : String) (now : Int) (i : Nat) (r : Int)
    (h : SleepInv e) : SleepInv (create_task_emotion_response e em now i r).1 := by
  unfold create_task_emotion_response
  split
  · exact h
  · split
    · exact h
    · exact h

theorem sleepInv_go_to_sleep (e : Engine) (now : Int) (i : Nat) (r : Int)
    (h : SleepInv e) : SleepInv (go_to_sleep e now i r).1 := by
  unfold go_to_sleep
  by_cases h1 : e.is_sleeping = true
  · rw [if_pos h1]
    exact h
  · rw [if_neg h1]
    by_cases h2 : (e.current_state = ("emotion") ∨ e.current_state = ("task")) ∧
        should_change_video e now = false
    · rw [if_pos h2]
      intro _
      simpa using h1
    · rw [if_neg h2]
      split
      · simp [SleepInv]
      · split
        · simp [SleepInv]
        · simp [SleepInv]

theorem sleepInv_wake_up (e : Engine) (now : Int) (i : Nat) (r : Int)
    (h : SleepInv e) : SleepInv (wake_up e now i r).1 := by
  unfold wake_up
  by_cases h1 : e.is_sleeping = false
  · rw [if_pos h1]
    exact h
  · rw [if_neg h1]
    split
    · simp [SleepInv]
    · split
      · simp [SleepInv]
      · simp [SleepInv]

theorem sleepInv_next (e : Engine) (now : Int) (i : Nat) (r : Int)
    (h : SleepInv e) : SleepInv (get_next_video e now i r).1 := by
  unfold get_next_video
  by_cases h1 : e.sleep_pending = true ∧ should_change_video e now = true
  · rw [if_pos h1]
    exact sleepInv_go_to_sleep e now i r h
  · rw [if_neg h1]
    by_cases h2 : e.current_state = ("sleep") ∨ e.is_sleeping = true
    · rw [if_pos h2]
      exact h
    · rw [if_neg h2]
      by_cases h3 : e.current_state = ("idle")
      · rw [if_pos h3]
        exact sleepInv_cir e now i r h
      · rw [if_neg h3]
        by_cases h4 : e.current_state = ("task") ∧ e.task_queue ≠ []
        · rw [if_pos h4]
          cases hq : e.task_queue with
          | nil => exact absurd hq h4.2
          | cons em rest => exact sleepInv_cter { e with task_queue := rest } em now i r h
        · rw [if_neg h4]
          by_cases h5 : e.current_state = ("task") ∧ e.task_queue = []
          · rw [if_pos h5]
            exact sleepInv_cir (complete_task e) now i r h
          · rw [if_neg h5]
            by_cases h6 : e.current_state = ("emotion")
            · rw [if_pos h6]
              exact sleepInv_cir
                { e with
                  current_state := ("idle")
                  current_video_start_time := none
                  current_video_duration := none } now i r h
            · rw [if_neg h6]
              exact sleepInv_cir { e with current_state := ("idle") } now i r h

/-- The first sleep invariant holds in every reachable state. -/
theorem reachable_sleepInv (e : Engine) (h : Reachable e) : SleepInv e := by
  induction h with
  | init exprs cm fb idles => exact sleepInv_init exprs cm fb idles
  | stepStartTask e em _ ih => exact sleepInv_start_task e em ih
  | stepAddTaskEmotion e em _ ih => exact sleepInv_add_task_emotion e em ih
  | stepCompleteTask e _ ih => exact sleepInv_complete_task e ih
  | stepRecordResponse e msg em now i r _ ih => exact sleepInv_cpr e msg em now i r ih
  | stepGoToSleep e now i r _ ih => exact sleepInv_go_to_sleep e now i r ih
  | stepWakeUp e now i r _ ih => exact sleepInv_wake_up e now i r ih
  | stepNextClip e now i r _ ih => exact sleepInv_next e now i r ih

theorem cir_fst_is_sleeping (e : Engine) (now : Int) (i : Nat) (r : Int) :
    (create_idle_response e now i r).1.is_sleeping = e.is_sleeping := by
  unfold create_idle_response
  split
  · rfl
  · rfl

theorem cter_fst_is_sleeping (e : Engine) (em : String) (now : Int) (i : Nat) (r : Int) :
    (create_task_emotion_response e em now i r).1.is_sleeping = e.is_sleeping := by
  unfold create_task_emotion_response
  split
  · rfl
  · split
    · rfl
    · rfl

theorem modeInv_cir_respond (e : Engine) (now : Int) (i : Nat) (r : Int)
    (hsl : e.is_sleeping = false) :
    ModeInv (respond (create_idle_response e now i r)).1 := by
  intro hs
  rw [respond_fst, cir_fst_is_sleeping, hsl] at hs
  simp at hs

theorem modeInv_cter_respond (e : Engine) (em : String) (now : Int) (i : Nat) (r : Int)
    (hsl : e.is_sleeping = false) :
    ModeInv (respond (create_task_emotion_response e em now i r)).1 := by
  intro hs
  rw [respond_fst, cter_fst_is_sleeping, hsl] at hs
  simp at hs

theorem modeInv_go_to_sleep (e : Engine) (now : Int) (i : Nat) (r : Int)
    (h : ModeInv e) : ModeInv (go_to_sleep e now i r).1 := by
  unfold go_to_sleep
  by_cases h1 : e.is_sleeping = true
  · rw [if_pos h1]
    exact h
  · rw [if_neg h1]
    by_cases h2 : (e.current_state = ("emotion") ∨ e.current_state = ("task")) ∧
        should_change_video e now = false
    · rw [if_pos h2]
      intro hs
      exact h hs
    · rw [if_neg h2]
      split
      · intro _
        rfl
      · split
        · intro _
          rfl
        · intro _
          rfl

theorem modeInv_wake_up (e : Engine) (now : Int) (i : Nat) (r : Int)
    (h : ModeInv e) : ModeInv (wake_up e now i r).1 := by
  unfold wake_up
  by_cases h1 : e.is_sleeping = false
  · rw [if_pos h1]
    exact h
  · rw [if_neg h1]
    split
    · simp [ModeInv]
    · split
      · simp [ModeInv]
      · simp [ModeInv]

theorem modeInv_add_task_emotion (e : Engine) (em : String) (h : ModeInv e) :
    ModeInv (add_task_emotion e em) := by
  unfold add_task_emotion
  split
  · intro hs
    exact h hs
  · exact h

theorem modeInv_next (e : Engine) (now : Int) (i : Nat) (r : Int)
    (h : ModeInv e) : ModeInv (get_next_video e now i r).1 := by
  unfold get_next_video
  by_cases h1 : e.sleep_pending = true ∧ should_change_video e now = true
  · rw [if_pos h1]
    exact modeInv_go_to_sleep e now i r h
  · rw [if_neg h1]
    by_cases h2 : e.current_state = ("sleep") ∨ e.is_sleeping = true
    · rw [if_pos h2]
      exact h
    · rw [if_neg h2]
      have hsl : e.is_sleeping = false := by
        cases hb : e.is_sleeping
        · rfl
        · exact absurd (Or.inr hb) h2
      by_cases h3 : e.current_state = ("idle")
      · rw [if_pos h3]
        exact modeInv_cir_respond e now i r hsl
      · rw [if_neg h3]
        by_cases h4 : e.current_state = ("task") ∧ e.task_queue ≠ []
        · rw [if_pos h4]
          cases hq : e.task_queue with
          | nil => exact absurd hq h4.2
          | cons em rest =>
            exact modeInv_cter_respond { e with task_queue := rest } em now i r hsl
        · rw [if_neg h4]
          by_cases h5 : e.current_state = ("task") ∧ e.task_queue = []
          · rw [if_pos h5]
            exact modeInv_cir_respond (complete_task e) now i r hsl
          · rw [if_neg h5]
            by_cases h6 : e.current_state = ("emotion")
            · rw [if_pos h6]
              exact modeInv_cir_respond
                { e with
                  current_state := ("idle")
                  current_video_start_time := none
                  current_video_duration := none } now i r hsl
            · rw [if_neg h6]
              exact modeInv_cir_respond { e with current_state := ("idle") } now i r hsl

/-- C4 counterexample: from a fresh engine, `go_to_sleep` (no active
clip, so immediate) followed by `start_task` reaches a state with
`is_sleeping = true` but mode `task`, violating the claimed invariant
`isSleeping ⇒ mode = Sleep` on a state reachable through the public
operations. -/
theorem C4_counterexample :
    Reachable e4bad ∧ e4bad.is_sleeping = true ∧ e4bad.current_state = ("task") := by
  refine ⟨?_, by decide, by decide⟩
  exact Reachable.stepStartTask _ ("joy")
    (Reachable.stepGoToSleep _ 0 0 1 (Reachable.init [] cmEmpty [] []))

/-- C4 amended: the invariant `sleepPending ⇒ ¬isSleeping` does hold in
every state reachable through the public operations; the invariant
`isSleeping ⇒ mode = Sleep` is preserved by `go_to_sleep`, `wake_up`,
`add_task_emotion` and `get_next_video`, but not by `start_task`,
`complete_task` or `create_personality_response` invoked while
sleeping, which change the mode without clearing `is_sleeping`. -/
theorem C4_sleep_invariants_amended (e : Engine) (now : Int) (i : Nat) (r : Int)
    (em : String) :
    (Reachable e → SleepInv e) ∧
    (ModeInv e →
      ModeInv (go_to_sleep e now i r).1 ∧
      ModeInv (wake_up e now i r).1 ∧
      ModeInv (add_task_emotion e em) ∧
      ModeInv (get_next_video e now i r).1) := by
  constructor
  · exact reachable_sleepInv e
  · intro h
    exact ⟨modeInv_go_to_sleep e now i r h, modeInv_wake_up e now i r h,
      modeInv_add_task_emotion e em h, modeInv_next e now i r h⟩

theorem C4_witness :
    SleepInv e4bad ∧
    ModeInv (go_to_sleep e2w 3 0 1).1 ∧
    ModeInv (wake_up e2w 3 0 1).1 ∧
    ModeInv (add_task_emotion e2w ("joy")) ∧
    ModeInv (get_next_video e2w 3 0 1).1 := by
  have h1 := (C4_sleep_invariants_amended e4bad 3 0 1 ("joy")).1
    (Reachable.stepStartTask _ ("joy")
      (Reachable.stepGoToSleep _ 0 0 1 (Reachable.init [] cmEmpty [] [])))
  have h2 := (C4_sleep_invariants_amended e2w 3 0 1 ("joy")).2
    (fun hs => absurd hs (by decide))
  exact ⟨h1, h2.1, h2.2.1, h2.2.2.1, h2.2.2.2⟩

/-- C9 counterexample: with the rule table `cm9` the label `joy` is
matched under both the error-severity and the interaction-type keys, so
the filtered candidate list is `[joy, joy, sad]`.  `random.choice`
draws a uniform position of that list (index `i % 3`), so across the
three equally likely positions `joy` is returned twice and `sad` once —
probability 2/3 versus 1/3 — refuting the claim that each distinct
matching label of the union is equally likely. -/
theorem C9_counterexample :
    valid_candidates e9 ctx9 = [("joy"), ("joy"), ("sad")] ∧
    determine_emotion_by_rules e9 ctx9 0 = ("joy") ∧
    determine_emotion_by_rules e9 ctx9 1 = ("joy") ∧
    determine_emotion_by_rules e9 ctx9 2 = ("sad") := by
  refine ⟨by decide, by decide, by decide, by decide⟩

/-- C9 amended: the resolver returns the element at the uniformly drawn
position of the concatenated candidate list filtered to catalog
membership — so a label matched under several signal keys is
proportionally more likely, not uniform over the distinct-label set;
when no candidate matches it returns the element at the uniformly drawn
position of the catalog-filtered fallback list; when that is also empty
it returns the fixed default label.  Every returned candidate belongs
to the matched candidates and is present in the catalog. -/
theorem C9_resolver_amended (e : Engine) (ctx : Context) (i : Nat) :
    (valid_candidates e ctx ≠ [] →
      some (determine_emotion_by_rules e ctx i) =
        (valid_candidates e ctx)[i % (valid_candidates e ctx).length]? ∧
      determine_emotion_by_rules e ctx i ∈ valid_candidates e ctx) ∧
    (valid_candidates e ctx = [] → valid_fallbacks e ≠ [] →
      some (determine_emotion_by_rules e ctx i) =
        (valid_fallbacks e)[i % (valid_fallbacks e).length]? ∧
      determine_emotion_by_rules e ctx i ∈ valid_fallbacks e) ∧
    (valid_candidates e ctx = [] → valid_fallbacks e = [] →
      determine_emotion_by_rules e ctx i = e.default_emotion) ∧
    (∀ c ∈ valid_candidates e ctx,
      c ∈ allCandidates e ctx ∧ (List.lookup c e.expressions).isSome = true) := by
  refine ⟨?_, ?_, ?_, ?_⟩
  · intro h
    rw [determine_emotion_by_rules, dif_pos h]
    have hlt : i % (valid_candidates e ctx).length < (valid_candidates e ctx).length :=
      Nat.mod_lt _ (List.length_pos.mpr h)
    exact ⟨(List.getElem?_eq_getElem hlt).symm, List.get_mem _ _ hlt⟩
  · intro h h2
    rw [determine_emotion_by_rules, dif_neg (by simp [h]), dif_pos h2]
    have hlt : i % (valid_fallbacks e).length < (valid_fallbacks e).length :=
      Nat.mod_lt _ (List.length_pos.mpr h2)
    exact ⟨(List.getElem?_eq_getElem hlt).symm, List.get_mem _ _ hlt⟩
  · intro h h2
    rw [determine_emotion_by_rules, dif_neg (by simp [h]), dif_neg (by simp [h2])]
  · intro c hc
    unfold valid_candidates at hc
    exact ⟨(List.mem_filter.mp hc).1, (List.mem_filter.mp hc).2⟩

theorem C9_witness :
    some (determine_emotion_by_rules e9 ctx9 1) =
      (valid_candidates e9 ctx9)[1 % (valid_candidates e9 ctx9).length]? ∧
    determine_emotion_by_rules e9 ctx9 1 ∈ valid_candidates e9 ctx9 :=
  (C9_resolver_amended e9 ctx9 1).1 (by decide)
